import Mathlib

/-!
Shallow embedding of `core/module.py` (weevely3): the per-module argument
resolution pipeline and lifecycle state machine (`Module.run_argv`,
`Module.run_cmdline`, `Module.register_arguments`), together with a model of
the Python `getopt.getopt` long-option parser that `run_argv` calls.

Python dictionaries with string keys and string values are embedded as
association lists with `Dict`; Python's dict assignment, `update`, `copy`
and lookup are mirrored by `Dict.insert`, `Dict.update` and `Dict.get?`.
External collaborators (the vectors list, logging, help rendering, the
shell lexer) are modelled as explicit parameters and as events recorded in
an output trace.
-/

namespace Weevely

/-- A Python `dict` keyed by strings, as an association list.  All dicts
built by the embedded code keep keys unique (`Dict.NodupKeys`); `get?`
returns the first binding. -/
abbrev Dict := List (String × String)

namespace Dict

/-- Python `d[k]` / `d.get(k)`: the first binding of `k`, if any. -/
def get? : Dict → String → Option String
  | [], _ => none
  | (a, v) :: d, k => if k = a then some v else get? d k

/-- Python `d[k] = v`: replace the first binding of `k` in place, or append
a new binding at the end (dict insertion order). -/
def insert : Dict → String → String → Dict
  | [], k, v => [(k, v)]
  | (a, w) :: d, k, v =>
    if a = k then (k, v) :: d else (a, w) :: insert d k v

/-- Python `d.update(pairs)`: assign each pair left to right (a later pair
with the same key wins). -/
def update (d : Dict) (ps : List (String × String)) : Dict :=
  ps.foldl (fun a p => a.insert p.1 p.2) d

/-- Python `dict(pairs)`: build a dict from pairs, later pair wins. -/
def ofPairs (ps : List (String × String)) : Dict := update [] ps

/-- The keys of the association list are pairwise distinct (always true of
an actual Python dict). -/
def NodupKeys (d : Dict) : Prop := (d.map Prod.fst).Nodup

instance (d : Dict) : Decidable d.NodupKeys := by
  unfold NodupKeys
  infer_instance

end Dict

/-- First-some choice on options: `orD x y` is `x` unless `x` is `none`.
Used to state layered merge precedence (the left operand is the higher
precedence layer). -/
def orD (x y : Option String) : Option String :=
  match x with
  | some v => some v
  | none => y

theorem orD_none_right (x : Option String) : orD x none = x := by
  cases x <;> rfl

theorem Dict.get?_insert (d : Dict) (k v k' : String) :
    (d.insert k v).get? k' = if k' = k then some v else d.get? k' := by
  induction d with
  | nil =>
    by_cases h : k' = k <;> simp [insert, get?, h]
  | cons p d ih =>
    obtain ⟨a, w⟩ := p
    by_cases hak : a = k
    · subst hak
      by_cases h : k' = a <;> simp [insert, get?, h]
    · by_cases h : k' = k
      · subst h
        simp [insert, get?, hak, ih, Ne.symm hak]
      · by_cases h2 : k' = a <;> simp [insert, get?, hak, ih, h, h2]

theorem Dict.get?_update (d : Dict) (ps : List (String × String)) (k : String) :
    (d.update ps).get? k = orD ((Dict.ofPairs ps).get? k) (d.get? k) := by
  induction ps generalizing d with
  | nil => simp [update, ofPairs, get?, orD]
  | cons p ps ih =>
    obtain ⟨a, v⟩ := p
    have h1 : Dict.update d ((a, v) :: ps) = Dict.update (d.insert a v) ps := rfl
    have h2 : Dict.ofPairs ((a, v) :: ps) = Dict.update ((Dict.insert [] a v)) ps := rfl
    rw [h1, ih, h2, ih]
    cases hop : (Dict.ofPairs ps).get? k with
    | some x => simp [orD]
    | none =>
      by_cases hka : k = a <;>
        simp [orD, Dict.get?_insert, hka, Dict.get?]

theorem Dict.get?_update_of_not_mem (d : Dict) (ps : List (String × String))
    (k : String) (h : ∀ p ∈ ps, p.1 ≠ k) : (d.update ps).get? k = d.get? k := by
  induction ps generalizing d with
  | nil => rfl
  | cons p ps ih =>
    obtain ⟨a, v⟩ := p
    have ha : a ≠ k := h (a, v) (List.mem_cons_self _ _)
    have h1 : Dict.update d ((a, v) :: ps) = Dict.update (d.insert a v) ps := rfl
    rw [h1, ih _ (fun q hq => h q (List.mem_cons_of_mem _ hq)), Dict.get?_insert]
    exact if_neg (fun hk => ha hk.symm)

theorem Dict.nodupKeys_cons {a v : String} {d : Dict} (h : Dict.NodupKeys ((a, v) :: d)) :
    (∀ p ∈ d, p.1 ≠ a) ∧ Dict.NodupKeys d := by
  unfold Dict.NodupKeys at h
  rw [List.map_cons, List.nodup_cons] at h
  refine ⟨fun p hp hpa => ?_, h.2⟩
  have hm := List.mem_map_of_mem Prod.fst hp
  rw [hpa] at hm
  exact h.1 hm

theorem Dict.get?_ofPairs_self (d : Dict) (h : d.NodupKeys) (k : String) :
    (Dict.ofPairs d).get? k = d.get? k := by
  induction d with
  | nil => rfl
  | cons p d ih =>
    obtain ⟨a, v⟩ := p
    obtain ⟨hnot, hd⟩ := Dict.nodupKeys_cons h
    have h1 : Dict.ofPairs ((a, v) :: d) = Dict.update [(a, v)] d := rfl
    by_cases hka : k = a
    · subst hka
      rw [h1, Dict.get?_update_of_not_mem _ _ _ (fun p hp => hnot p hp)]
      simp [Dict.get?]
    · rw [h1, Dict.get?_update, ih hd]
      simp [Dict.get?, hka, orD_none_right]

/-- Python `s.startswith(pre)`, computed on the character list (the core
`String.startsWith` is implemented with well-founded recursion on byte
positions and does not reduce in the kernel). -/
def strStartsWith (s pre : String) : Bool := pre.toList.isPrefixOf s.toList

/-- Python `s[n:]` on the character list. -/
def strDrop (s : String) (n : Nat) : String := String.mk (s.toList.drop n)

/-- Python `s[:n]` on the character list. -/
def strTake (s : String) (n : Nat) : String := String.mk (s.toList.take n)

/-- Python `s.endswith(sfx)` on the character list. -/
def strEndsWith (s sfx : String) : Bool :=
  sfx.toList.reverse.isPrefixOf s.toList.reverse

/-- Python `s[:-1]` on the character list. -/
def strDropLast (s : String) : String := String.mk s.toList.dropLast

/-- Python `s.strip('-')`: remove leading and trailing dash characters
(`module.py` line 101, `key.strip('-')`). -/
def pyStripDashes (s : String) : String :=
  String.mk (((s.toList.dropWhile (fun c => c = '-')).reverse.dropWhile
    (fun c => c = '-')).reverse)

/-- Model of CPython `getopt.long_has_args`: match a long-option token
against the declared long options with unique-prefix expansion.  Returns
whether the matched option takes an argument and its canonical name. -/
def long_has_args (opt : String) (longopts : List String) :
    Except String (Bool × String) :=
  let possibilities := longopts.filter (fun o => opt.toList.isPrefixOf o.toList)
  if possibilities = [] then
    .error ("option --" ++ opt ++ " not recognized")
  else if opt ∈ possibilities then
    .ok (false, opt)
  else if (opt ++ "=") ∈ possibilities then
    .ok (true, opt)
  else if 1 < possibilities.length then
    .error ("option --" ++ opt ++ " not a unique prefix")
  else
    let u := possibilities.headD ""
    if strEndsWith u "=" then .ok (true, strDropLast u) else .ok (false, u)

/-- Model of CPython `getopt.do_longs`: consume one `--opt` or `--opt=val`
token (and, when the option requires a value, the following token). -/
def do_longs (longopts : List String) (opt : String) (args : List String) :
    Except String ((String × String) × List String) :=
  let split :=
    match opt.toList.findIdx? (fun c => c = '=') with
    | none => (opt, (none : Option String))
    | some i => (String.mk (opt.toList.take i), some (String.mk (opt.toList.drop (i + 1))))
  match long_has_args split.1 longopts with
  | .error e => .error e
  | .ok (hasArg, o) =>
    if hasArg then
      match split.2 with
      | some v => .ok (("--" ++ o, v), args)
      | none =>
        match args with
        | [] => .error ("option --" ++ o ++ " requires argument")
        | v :: rest => .ok (("--" ++ o, v), rest)
    else
      match split.2 with
      | some _ => .error ("option --" ++ o ++ " must not have an argument")
      | none => .ok (("--" ++ o, ""), args)

/-- Main loop of CPython `getopt.getopt` with empty `shortopts` (as called
at `module.py` lines 73-76): peel recognized long options off the front of
`argv`; parsing stops at the first non-option token, at `--`, or at a bare
`-`.  Any single-dash token is an error since no short options are
declared.  `fuel` bounds the recursion; it starts at the length of the
argument list, which the loop never grows. -/
def getopt_go (longopts : List String) :
    Nat → List String → List (String × String) →
    Except String (List (String × String) × List String)
  | 0, args, acc => .ok (acc, args)
  | fuel + 1, args, acc =>
    match args with
    | [] => .ok (acc, [])
    | a :: rest =>
      if strStartsWith a "-" ∧ a ≠ "-" then
        if a = "--" then .ok (acc, rest)
        else if strStartsWith a "--" then
          match do_longs longopts (strDrop a 2) rest with
          | .error e => .error e
          | .ok (pair, rest2) => getopt_go longopts fuel rest2 (acc ++ [pair])
        else
          .error ("option -" ++ strTake (strDrop a 1) 1 ++ " not recognized")
      else
        .ok (acc, a :: rest)

/-- Python `getopt.getopt(argv, '', longopts)`: returns the recognized
`(--name, value)` pairs and the remaining positional arguments, or a parse
error. -/
def pyGetopt (longopts : List String) (args : List String) :
    Except String (List (String × String) × List String) :=
  getopt_go longopts args.length args []

/-- Module lifecycle status (`module.py` class `Status`). -/
inductive Status where
  | idle
  | run
  | fail
  deriving DecidableEq

/-- Per-module session record (`module.py` lines 26-30): the mutable state
kept in the session db under the module's name. -/
structure SessionRecord where
  stored_args : Dict
  results : Dict
  status : Status
  deriving DecidableEq

/-- Static module descriptor: the fields `register_arguments` sets on the
module object (`module.py` lines 179-189) plus the module name. -/
structure ModuleDesc where
  name : String
  args_mandatory : List String
  args_optional : Dict
  bind_to_vectors : String
  deriving DecidableEq

/-- Structured stand-in for the format strings of `core/messages` (that
file is outside `src/`; each constructor carries exactly the data the code
interpolates into the corresponding message). -/
inductive LogMsg where
  | getoptError (e : String)
  | missingArguments (mandatoryList : String)
  | notAVector (argName : String)
  | moduleInactive (moduleName : String)
  | errorParsingCommand (e : String)
  | resultInfo (result : String)
  deriving DecidableEq

/-- Observable side effects of one facade call, recorded in order: log
lines, help rendering, and the `setup()` / `run()` hook invocations with
the argument dict each received. -/
inductive Event where
  | logInfo (m : LogMsg)
  | logWarn (m : LogMsg)
  | helpShown
  | setupCalled (args : Dict)
  | runCalled (args : Dict)
  deriving DecidableEq

/-- Outcome of a facade call: a normal Python return value (`none` models
Python `None`) or an uncaught exception carrying its message. -/
inductive ROut where
  | ret (r : Option String)
  | raised (e : String)
  deriving DecidableEq

/-- Result of `run_argv` / `run_cmdline`: outcome, the session record after
the call, and the event trace. -/
structure RunResult where
  out : ROut
  record : SessionRecord
  events : List Event
  deriving DecidableEq

def Event.isHookCall : Event → Bool
  | .setupCalled _ => true
  | .runCalled _ => true
  | _ => false

def Event.isRunCall : Event → Bool
  | .runCalled _ => true
  | _ => false

def Event.isSetupCall : Event → Bool
  | .setupCalled _ => true
  | _ => false

/-- True when the trace shows `run()` was invoked. -/
def hasRunCall (evs : List Event) : Bool := evs.any Event.isRunCall

/-- True when the trace shows `setup()` was invoked. -/
def hasSetupCall (evs : List Event) : Bool := evs.any Event.isSetupCall

def ROut.isRaised : ROut → Bool
  | .raised _ => true
  | .ret _ => false

def exceptOk {ε α : Type} : Except ε α → Bool
  | .ok _ => true
  | .error _ => false

/-- The message of the Python `KeyError` raised by `stored_args[key]` at
`module.py` line 129 when `key` is missing from the snapshot. -/
def keyErrorMsg (k : String) : String := "KeyError: " ++ k

/-- Hook signature for `Module.setup` (overridable; `module.py` lines
135-149): receives the resolved args, may read and mutate the session
record, and either returns the new `Status` (with the possibly mutated
record) or raises. -/
abbrev SetupHook := Dict → SessionRecord → Except String (Status × SessionRecord)

/-- Hook signature for `Module.run`: receives the resolved args and either
returns a value (`none` models Python `None`) or raises. -/
abbrev RunHook := Dict → Except String (Option String)

/-- The default `Module.setup` (`module.py` line 149): always `RUN`, no
session mutation. -/
def default_setup : SetupHook := fun _ rec => .ok (.run, rec)

/-- Lines 90-93: if more than one mandatory token was supplied and exactly
one mandatory argument is declared, join all mandatory tokens with single
spaces into one token. -/
def collapse_mandatory (declared : List String) (ts : List String) : List String :=
  if 1 < ts.length ∧ declared.length = 1 then [String.intercalate " " ts] else ts

/-- Lines 95-106: the per-invocation working set.  Start from a copy of the
session's `stored_args`, overwrite with the command-line optional flags
(names stripped of dashes), then overwrite with the mandatory tokens
consumed from the front in declaration order. -/
def working_set (M : ModuleDesc) (stored : Dict)
    (opts : List (String × String)) (mand_tokens : List String) : Dict :=
  Dict.update
    (Dict.update stored (opts.map (fun p => (pyStripDashes p.1, p.2))))
    (M.args_mandatory.zip mand_tokens)

/-- Lines 108-113: the bound-to-vectors check fails when `args.get(bind)`
is truthy (a non-empty string) and not among the vector names. -/
def vector_check_fails (M : ModuleDesc) (vector_names : List String)
    (args : Dict) : Bool :=
  match args.get? M.bind_to_vectors with
  | some v => decide (v ≠ "") && decide (v ∉ vector_names)
  | none => false

/-- Lines 126-131: the post-setup reconciliation dict
`dict((key, value) for key, value in post.items() if value != snapshot[key])`.
Evaluating `snapshot[key]` raises `KeyError` (returned as `.error key`)
when a post-setup key is absent from the pre-setup snapshot. -/
def reconcile_delta : Dict → Dict → Except String Dict
  | _, [] => .ok []
  | snapshot, (k, v) :: post =>
    match snapshot.get? k with
    | none => .error k
    | some w =>
      match reconcile_delta snapshot post with
      | .error e => .error e
      | .ok d => .ok (if v = w then d else (k, v) :: d)

/-- The `setup()` events of one lifecycle pass: `setup` is invoked exactly
when the status on entry is `IDLE` (line 116). -/
def setup_events (rec : SessionRecord) (args : Dict) : List Event :=
  if rec.status = Status.idle then [Event.setupCalled args] else []

/-- Lines 115-117: when the status is `IDLE`, call `setup(args)` and store
the returned status; otherwise leave the record untouched.  A raising
`setup` propagates. -/
def post_setup (s : SetupHook) (args : Dict) (rec : SessionRecord) :
    Except String SessionRecord :=
  if rec.status = Status.idle then
    match s args rec with
    | .ok (st, rec2) => .ok { rec2 with status := st }
    | .error e => .error e
  else .ok rec

/-- Lines 119-133: after the setup phase, short-circuit on `FAIL` with the
module-inactive warning; otherwise apply the post-setup reconciliation
deltas to the working set (a missing snapshot key raises `KeyError`) and
call `run` with the final args, returning its result. -/
def after_setup (M : ModuleDesc) (r : RunHook) (snapshot args : Dict)
    (rec : SessionRecord) (evs : List Event) : RunResult :=
  if rec.status = Status.fail then
    ⟨.ret none, rec, evs ++ [Event.logWarn (.moduleInactive M.name)]⟩
  else
    match reconcile_delta snapshot rec.stored_args with
    | .error k => ⟨.raised (keyErrorMsg k), rec, evs⟩
    | .ok delta =>
      match r (Dict.update args delta) with
      | .ok res => ⟨.ret res, rec, evs ++ [Event.runCalled (Dict.update args delta)]⟩
      | .error e => ⟨.raised e, rec, evs ++ [Event.runCalled (Dict.update args delta)]⟩

/-- Lines 115-133 as one step: the lifecycle controller run on the working
set, with `snapshot` the copy of `stored_args` taken at line 96. -/
def lifecycle_phase (M : ModuleDesc) (s : SetupHook) (r : RunHook)
    (snapshot args : Dict) (rec : SessionRecord) : RunResult :=
  match post_setup s args rec with
  | .error e => ⟨.raised e, rec, setup_events rec args⟩
  | .ok rec2 => after_setup M r snapshot args rec2 (setup_events rec args)

/-- Lines 108-133: vector-binding validation on the working set, then the
lifecycle phase. -/
def resolve_and_dispatch (M : ModuleDesc) (vector_names : List String)
    (s : SetupHook) (r : RunHook) (rec : SessionRecord)
    (opts : List (String × String)) (mand_tokens : List String) : RunResult :=
  if vector_check_fails M vector_names (working_set M rec.stored_args opts mand_tokens) then
    ⟨.ret none, rec, [Event.logWarn (.notAVector M.bind_to_vectors)]⟩
  else
    lifecycle_phase M s r rec.stored_args
      (working_set M rec.stored_args opts mand_tokens) rec

/-- `Module.run_argv` (`module.py` lines 58-133): parse `argv` with
`getopt` (parse failure logs and shows help), abort with the
missing-arguments message when fewer mandatory tokens than declared
mandatory arguments were supplied, collapse the mandatory tokens when a
single mandatory argument is declared, then resolve and dispatch. -/
def run_argv (M : ModuleDesc) (vector_names : List String)
    (s : SetupHook) (r : RunHook) (rec : SessionRecord)
    (argv : List String) : RunResult :=
  match pyGetopt (M.args_optional.map (fun p => p.1 ++ "=")) argv with
  | .error e => ⟨.ret none, rec, [Event.logInfo (.getoptError e), Event.helpShown]⟩
  | .ok (line_args_optional, line_args_mandatory) =>
    if line_args_mandatory.length < M.args_mandatory.length then
      ⟨.ret none, rec,
        [Event.logInfo (.missingArguments (String.intercalate " " M.args_mandatory)),
         Event.helpShown]⟩
    else
      resolve_and_dispatch M vector_names s r rec line_args_optional
        (collapse_mandatory M.args_mandatory line_args_mandatory)

/-- `Module.register_arguments` (`module.py` lines 179-189): record the
declared mandatory list, a copy of the optional defaults and the vector
binding on the descriptor; merge the already-persisted `stored_args` over
the optional defaults and store the merged dict as the new `stored_args`. -/
def register_arguments (name : String) (mandatory : List String)
    (optional : Dict) (bind_to_vectors : String) (rec : SessionRecord) :
    ModuleDesc × SessionRecord :=
  (⟨name, mandatory, optional, bind_to_vectors⟩,
   { rec with stored_args := Dict.update optional rec.stored_args })

/-- `Module.run_cmdline` (`module.py` lines 34-56): tokenization is
external, so the caller passes the shell-lexer outcome.  Any exception
from tokenization or from `run_argv` is caught, logged as a warning via
the error-parsing-command message, and the call returns `None`; a
non-`None`, non-empty result is logged and returned unchanged. -/
def runCmdline (M : ModuleDesc) (vector_names : List String)
    (s : SetupHook) (r : RunHook) (rec : SessionRecord)
    (tok : Except String (List String)) : RunResult :=
  match tok with
  | .error e => ⟨.ret none, rec, [Event.logWarn (.errorParsingCommand e)]⟩
  | .ok argv =>
    match run_argv M vector_names s r rec argv with
    | ⟨.raised e, rec2, evs⟩ =>
      ⟨.ret none, rec2, evs ++ [Event.logWarn (.errorParsingCommand e)]⟩
    | ⟨.ret res, rec2, evs⟩ =>
      ⟨.ret res, rec2,
        evs ++ (match res with
          | some str => if str = "" then [] else [Event.logInfo (.resultInfo str)]
          | none => [])⟩

theorem lifecycle_phase_fail (M : ModuleDesc) (s : SetupHook) (r : RunHook)
    (snapshot args : Dict) (rec : SessionRecord) (h : rec.status = Status.fail) :
    lifecycle_phase M s r snapshot args rec =
      ⟨.ret none, rec, [Event.logWarn (.moduleInactive M.name)]⟩ := by
  simp [lifecycle_phase, post_setup, after_setup, setup_events, h]

theorem reconcile_delta_keys_sublist (snapshot post delta : Dict)
    (h : reconcile_delta snapshot post = Except.ok delta) :
    (delta.map Prod.fst).Sublist (post.map Prod.fst) := by
  induction post generalizing delta with
  | nil =>
    unfold reconcile_delta at h
    injection h with h
    subst h
    simp
  | cons p post ih =>
    obtain ⟨k, v⟩ := p
    unfold reconcile_delta at h
    split at h
    · simp at h
    · rename_i w hs
      split at h
      · simp at h
      · rename_i d hr
        injection h with h
        by_cases hvw : v = w
        · rw [if_pos hvw] at h
          subst h
          simpa using (ih d hr).cons k
        · rw [if_neg hvw] at h
          subst h
          simpa using (ih d hr).cons₂ k

theorem reconcile_delta_nodupKeys (snapshot post delta : Dict)
    (hn : post.NodupKeys) (h : reconcile_delta snapshot post = Except.ok delta) :
    delta.NodupKeys :=
  hn.sublist (reconcile_delta_keys_sublist snapshot post delta h)

theorem reconcile_delta_error_of_missing (snapshot post : Dict) (k v : String)
    (hm : (k, v) ∈ post) (hs : snapshot.get? k = none) :
    exceptOk (reconcile_delta snapshot post) = false := by
  induction post with
  | nil => cases hm
  | cons p post ih =>
    obtain ⟨a, w⟩ := p
    rcases List.mem_cons.mp hm with heq | hmem
    · injection heq with h1 h2
      subst h1
      unfold reconcile_delta
      rw [hs]
      rfl
    · unfold reconcile_delta
      cases hsa : snapshot.get? a with
      | none => rfl
      | some w2 =>
        have h2 := ih hmem
        cases hr : reconcile_delta snapshot post with
        | error e => rfl
        | ok d =>
          rw [hr] at h2
          exact absurd h2 (by simp [exceptOk])

/-- C7: for every module, if `run_argv` is called with fewer mandatory
tokens than declared mandatory arguments, it fails with the
missing-arguments message naming the space-joined full mandatory-argument
list, renders help, returns nothing, and the session record is unchanged
with neither `setup()` nor `run()` invoked (the exact event trace contains
no hook calls). -/
theorem C7_missing_arguments_abort (M : ModuleDesc) (vn : List String)
    (s : SetupHook) (r : RunHook) (rec : SessionRecord) (argv : List String)
    (opts : List (String × String)) (mand : List String)
    (hg : pyGetopt (M.args_optional.map (fun p => p.1 ++ "=")) argv = Except.ok (opts, mand))
    (hlt : mand.length < M.args_mandatory.length) :
    run_argv M vn s r rec argv =
      ⟨.ret none, rec,
        [Event.logInfo (.missingArguments (String.intercalate " " M.args_mandatory)),
         Event.helpShown]⟩ := by
  unfold run_argv
  rw [hg]
  simp [hlt]

theorem C7_witness :
    run_argv ⟨"m7", ["a", "b"], [], ""⟩ [] default_setup
        (fun _ => Except.ok (some "r")) ⟨[], [], Status.idle⟩ ["x"] =
      ⟨.ret none, ⟨[], [], Status.idle⟩,
        [Event.logInfo (.missingArguments "a b"), Event.helpShown]⟩ :=
  C7_missing_arguments_abort ⟨"m7", ["a", "b"], [], ""⟩ [] default_setup
    (fun _ => Except.ok (some "r")) ⟨[], [], Status.idle⟩ ["x"] [] ["x"]
    (by rfl) (by decide)

/-- C8: after `register_arguments`, the session's `stored_args` is the
registered optional defaults overridden by the previously persisted
entries (the persisted value wins on collision), and the descriptor keeps
the pre-merge optional defaults. -/
theorem C8_reregistration_keeps_persisted (name : String) (mandatory : List String)
    (optional : Dict) (bindv : String) (rec : SessionRecord) (k : String)
    (h : rec.stored_args.NodupKeys) :
    ((register_arguments name mandatory optional bindv rec).2).stored_args.get? k
      = orD (rec.stored_args.get? k) (optional.get? k)
    ∧ ((register_arguments name mandatory optional bindv rec).1).args_optional
      = optional := by
  constructor
  · show (Dict.update optional rec.stored_args).get? k = _
    rw [Dict.get?_update, Dict.get?_ofPairs_self _ h]
  · rfl

theorem C8_witness :
    ((register_arguments "m" [] [("x", "1")] ""
        ⟨[("x", "2")], [], Status.idle⟩).2).stored_args.get? "x" = some "2" :=
  ((C8_reregistration_keeps_persisted "m" [] [("x", "1")] ""
    ⟨[("x", "2")], [], Status.idle⟩ "x" (by decide)).1).trans (by decide)

/-- C1: once the session record's status is `FAIL`, every `run_argv` call,
whatever its arguments, returns nothing, leaves the record unchanged (so
the status stays `FAIL`), and its trace contains no `setup()` or `run()`
invocation. -/
theorem C1_fail_is_permanent (M : ModuleDesc) (vn : List String)
    (s : SetupHook) (r : RunHook) (rec : SessionRecord) (argv : List String)
    (hfail : rec.status = Status.fail) :
    (run_argv M vn s r rec argv).out = ROut.ret none
    ∧ (run_argv M vn s r rec argv).record = rec
    ∧ (run_argv M vn s r rec argv).events.all (fun e => !e.isHookCall) = true := by
  have key : ∀ R : RunResult, run_argv M vn s r rec argv = R →
      R.out = ROut.ret none ∧ R.record = rec ∧
      R.events.all (fun e => !e.isHookCall) = true := by
    intro R hR
    unfold run_argv at hR
    rcases hg : pyGetopt (M.args_optional.map (fun p => p.1 ++ "=")) argv with e | ⟨opts, mand⟩
    · rw [hg] at hR
      simp only [] at hR
      subst hR
      exact ⟨rfl, rfl, by simp [Event.isHookCall]⟩
    · rw [hg] at hR
      simp only [] at hR
      by_cases hlt : mand.length < M.args_mandatory.length
      · rw [if_pos hlt] at hR
        subst hR
        exact ⟨rfl, rfl, by simp [Event.isHookCall]⟩
      · rw [if_neg hlt] at hR
        unfold resolve_and_dispatch at hR
        by_cases hv : vector_check_fails M vn
            (working_set M rec.stored_args opts
              (collapse_mandatory M.args_mandatory mand)) = true
        · rw [if_pos hv] at hR
          subst hR
          exact ⟨rfl, rfl, by simp [Event.isHookCall]⟩
        · rw [if_neg hv, lifecycle_phase_fail M s r _ _ rec hfail] at hR
          subst hR
          exact ⟨rfl, rfl, by simp [Event.isHookCall]⟩
  exact key _ rfl

theorem C1_witness :
    (run_argv ⟨"m1", [], [], ""⟩ [] default_setup (fun _ => Except.ok (some "r"))
        ⟨[], [], Status.fail⟩ ["x"]).out = ROut.ret none
    ∧ (run_argv ⟨"m1", [], [], ""⟩ [] default_setup (fun _ => Except.ok (some "r"))
        ⟨[], [], Status.fail⟩ ["x"]).record = ⟨[], [], Status.fail⟩
    ∧ (run_argv ⟨"m1", [], [], ""⟩ [] default_setup (fun _ => Except.ok (some "r"))
        ⟨[], [], Status.fail⟩ ["x"]).events.all (fun e => !e.isHookCall) = true :=
  C1_fail_is_permanent ⟨"m1", [], [], ""⟩ [] default_setup
    (fun _ => Except.ok (some "r")) ⟨[], [], Status.fail⟩ ["x"] rfl

theorem run_argv_reaches_dispatch (M : ModuleDesc) (vn : List String)
    (s : SetupHook) (r : RunHook) (rec : SessionRecord) (argv : List String)
    (opts : List (String × String)) (ts : List String)
    (hg : pyGetopt (M.args_optional.map (fun p => p.1 ++ "=")) argv = Except.ok (opts, ts))
    (ha : ¬ ts.length < M.args_mandatory.length) :
    run_argv M vn s r rec argv =
      resolve_and_dispatch M vn s r rec opts (collapse_mandatory M.args_mandatory ts) := by
  unfold run_argv
  rw [hg]
  simp [ha]

theorem lifecycle_phase_ok (M : ModuleDesc) (s : SetupHook) (r : RunHook)
    (snapshot args : Dict) (rec rec2 : SessionRecord)
    (hs : post_setup s args rec = Except.ok rec2) :
    lifecycle_phase M s r snapshot args rec =
      after_setup M r snapshot args rec2 (setup_events rec args) := by
  unfold lifecycle_phase
  rw [hs]

theorem after_setup_not_fail_error (M : ModuleDesc) (r : RunHook)
    (snapshot args : Dict) (rec : SessionRecord) (evs : List Event) (e : String)
    (hnf : ¬ rec.status = Status.fail)
    (hrc : reconcile_delta snapshot rec.stored_args = Except.error e) :
    after_setup M r snapshot args rec evs = ⟨.raised (keyErrorMsg e), rec, evs⟩ := by
  unfold after_setup
  rw [if_neg hnf, hrc]

theorem after_setup_not_fail_ok (M : ModuleDesc) (r : RunHook)
    (snapshot args : Dict) (rec : SessionRecord) (evs : List Event) (delta : Dict)
    (hnf : ¬ rec.status = Status.fail)
    (hrc : reconcile_delta snapshot rec.stored_args = Except.ok delta) :
    after_setup M r snapshot args rec evs =
      (match r (Dict.update args delta) with
       | .ok res => ⟨.ret res, rec, evs ++ [Event.runCalled (Dict.update args delta)]⟩
       | .error e => ⟨.raised e, rec, evs ++ [Event.runCalled (Dict.update args delta)]⟩) := by
  unfold after_setup
  rw [if_neg hnf, hrc]

theorem hasRunCall_setup_events (rec : SessionRecord) (args : Dict) :
    hasRunCall (setup_events rec args) = false := by
  unfold setup_events hasRunCall
  by_cases h : rec.status = Status.idle <;> simp [h, Event.isRunCall]

theorem hasRunCall_append (l1 l2 : List Event) :
    hasRunCall (l1 ++ l2) = (hasRunCall l1 || hasRunCall l2) := by
  simp [hasRunCall]

theorem runCmdline_of_raised (M : ModuleDesc) (vn : List String) (s : SetupHook)
    (r : RunHook) (rec : SessionRecord) (argv : List String) (e : String)
    (rec2 : SessionRecord) (evs : List Event)
    (h : run_argv M vn s r rec argv = ⟨.raised e, rec2, evs⟩) :
    runCmdline M vn s r rec (Except.ok argv) =
      ⟨.ret none, rec2, evs ++ [Event.logWarn (.errorParsingCommand e)]⟩ := by
  simp only [runCmdline, h]

/-- C4: once `run_argv` reaches resolution, it dispatches on the collapsed
mandatory-token list; when exactly one mandatory argument is declared and
more than one mandatory token was supplied, the working set binds that
argument to all mandatory tokens joined with single spaces; and when the
number of declared mandatory arguments is not one, no collapse happens. -/
theorem C4_arity_collapse (M : ModuleDesc) (vn : List String) (s : SetupHook)
    (r : RunHook) (rec : SessionRecord) (argv : List String)
    (opts : List (String × String)) (ts : List String)
    (hg : pyGetopt (M.args_optional.map (fun p => p.1 ++ "=")) argv = Except.ok (opts, ts))
    (ha : ¬ ts.length < M.args_mandatory.length) :
    run_argv M vn s r rec argv =
      resolve_and_dispatch M vn s r rec opts (collapse_mandatory M.args_mandatory ts)
    ∧ (∀ m, M.args_mandatory = [m] → 1 < ts.length →
        (working_set M rec.stored_args opts
            (collapse_mandatory M.args_mandatory ts)).get? m
          = some (String.intercalate " " ts))
    ∧ (M.args_mandatory.length ≠ 1 → collapse_mandatory M.args_mandatory ts = ts) := by
  refine ⟨run_argv_reaches_dispatch M vn s r rec argv opts ts hg ha, ?_, ?_⟩
  · intro m hm hlen
    have hc : collapse_mandatory M.args_mandatory ts = [String.intercalate " " ts] := by
      unfold collapse_mandatory
      rw [if_pos ⟨hlen, by rw [hm]; rfl⟩]
    rw [hc]
    unfold working_set
    rw [hm]
    rw [show (([m].zip [String.intercalate " " ts]) : List (String × String))
        = [(m, String.intercalate " " ts)] from rfl]
    rw [Dict.get?_update]
    simp [Dict.ofPairs, Dict.update, Dict.insert, Dict.get?, orD]
  · intro hne
    unfold collapse_mandatory
    rw [if_neg (fun hcon => hne hcon.2)]

theorem C4_witness :
    (working_set ⟨"m4", ["cmd"], [], ""⟩ [] []
        (collapse_mandatory ["cmd"] ["a", "b", "c"])).get? "cmd" = some "a b c"
    ∧ collapse_mandatory ["p", "q"] ["u", "v", "w"] = ["u", "v", "w"] :=
  ⟨(C4_arity_collapse ⟨"m4", ["cmd"], [], ""⟩ [] default_setup
      (fun _ => Except.ok none) ⟨[], [], Status.idle⟩ ["a", "b", "c"] []
      ["a", "b", "c"] (by rfl) (by decide)).2.1 "cmd" rfl (by decide),
   (C4_arity_collapse ⟨"x4", ["p", "q"], [], ""⟩ [] default_setup
      (fun _ => Except.ok none) ⟨[], [], Status.idle⟩ ["u", "v", "w"] []
      ["u", "v", "w"] (by rfl) (by decide)).2.2 (by decide)⟩

/-- C6 (amended): for a module with a non-empty `bind_to_vectors` name, if
the resolved working set contains a non-empty value for that key that is
not among the vector names, `run_argv` fails with the not-a-vector warning
naming the bound argument and touches nothing else (no `setup()`/`run()`,
record unchanged); if the value is a member of the vector names, or is the
empty string (falsy in Python, so the check is skipped), resolution
proceeds to the lifecycle phase. -/
theorem C6_vector_binding (M : ModuleDesc) (vn : List String) (s : SetupHook)
    (r : RunHook) (rec : SessionRecord) (argv : List String)
    (opts : List (String × String)) (ts : List String) (v : String)
    (hb : M.bind_to_vectors ≠ "")
    (hg : pyGetopt (M.args_optional.map (fun p => p.1 ++ "=")) argv = Except.ok (opts, ts))
    (ha : ¬ ts.length < M.args_mandatory.length)
    (hget : (working_set M rec.stored_args opts
        (collapse_mandatory M.args_mandatory ts)).get? M.bind_to_vectors = some v) :
    (v ≠ "" → v ∉ vn →
      run_argv M vn s r rec argv =
        ⟨.ret none, rec, [Event.logWarn (.notAVector M.bind_to_vectors)]⟩)
    ∧ (v ∈ vn ∨ v = "" →
      run_argv M vn s r rec argv =
        lifecycle_phase M s r rec.stored_args
          (working_set M rec.stored_args opts
            (collapse_mandatory M.args_mandatory ts)) rec) := by
  have hrun := run_argv_reaches_dispatch M vn s r rec argv opts ts hg ha
  constructor
  · intro hv hnm
    rw [hrun]
    unfold resolve_and_dispatch
    rw [if_pos (by simp [vector_check_fails, hget, hv, hnm])]
  · intro hv
    rw [hrun]
    unfold resolve_and_dispatch
    rw [if_neg (by rcases hv with h | h <;> simp [vector_check_fails, hget, h])]

theorem C6_witness :
    run_argv ⟨"m6w", [], [], "target"⟩ ["v1", "v2"] default_setup
        (fun _ => Except.ok (some "r")) ⟨[("target", "v3")], [], Status.idle⟩ [] =
      ⟨.ret none, ⟨[("target", "v3")], [], Status.idle⟩,
        [Event.logWarn (.notAVector "target")]⟩
    ∧ run_argv ⟨"m6w", [], [], "target"⟩ ["v1", "v2"] default_setup
        (fun _ => Except.ok (some "r")) ⟨[("target", "v1")], [], Status.idle⟩ [] =
      lifecycle_phase ⟨"m6w", [], [], "target"⟩ default_setup
        (fun _ => Except.ok (some "r")) [("target", "v1")] [("target", "v1")]
        ⟨[("target", "v1")], [], Status.idle⟩ :=
  ⟨(C6_vector_binding ⟨"m6w", [], [], "target"⟩ ["v1", "v2"] default_setup
      (fun _ => Except.ok (some "r")) ⟨[("target", "v3")], [], Status.idle⟩ []
      [] [] "v3" (by decide) (by rfl) (by decide) (by rfl)).1 (by decide) (by decide),
   (C6_vector_binding ⟨"m6w", [], [], "target"⟩ ["v1", "v2"] default_setup
      (fun _ => Except.ok (some "r")) ⟨[("target", "v1")], [], Status.idle⟩ []
      [] [] "v1" (by decide) (by rfl) (by decide) (by rfl)).2 (Or.inl (by decide))⟩

/-- C6 counterexample: with `bind_to_vectors = "target"`, vector names
`["v1"]`, and the working set holding the value `""` for `target` (a value
that is not a member of the vector names), `run_argv` does not fail with
the not-a-vector error: it proceeds and invokes both `setup()` and
`run()`, because the code skips the check for a falsy (empty) value. -/
theorem C6_counterexample :
    (working_set ⟨"m6", [], [], "target"⟩ [("target", "")] [] []).get? "target"
      = some ""
    ∧ (["v1"].contains "") = false
    ∧ run_argv ⟨"m6", [], [], "target"⟩ ["v1"] default_setup
        (fun _ => Except.ok (some "r")) ⟨[("target", "")], [], Status.idle⟩ [] =
      ⟨.ret (some "r"), ⟨[("target", "")], [], Status.run⟩,
        [Event.setupCalled [("target", "")], Event.runCalled [("target", "")]]⟩ :=
  ⟨rfl, rfl, rfl⟩

/-- Setup hook that stores the previously absent key `y` and reports
`RUN` (the scenario of spec §8's reconciliation example). -/
def setupAddY : SetupHook :=
  fun _ rec => .ok (.run, { rec with stored_args := [("y", "5")] })

/-- Run hook that returns the resolved value of `y`. -/
def runGetY : RunHook := fun a => .ok (a.get? "y")

/-- C2: evaluation at the failing input.  A module with no declared
arguments whose `setup()` stores `stored_args["y"] = "5"` (absent before)
and returns `RUN`: instead of `run()` receiving `y = "5"` as the spec and
the code's own comment (lines 124-125) promise, `run_argv` raises
`KeyError` out of the reconciliation step (line 129) and `run()` is never
invoked. -/
theorem C2_keyerror_on_added_key :
    run_argv ⟨"m2", [], [], ""⟩ [] setupAddY runGetY ⟨[], [], Status.idle⟩ [] =
      ⟨.raised (keyErrorMsg "y"), ⟨[("y", "5")], [], Status.run⟩,
        [Event.setupCalled []]⟩ := rfl

/-- C10: when the dispatch path reaches the lifecycle phase with status
`IDLE` and `setup()` returns normally with a non-`FAIL` status, having
stored a key absent from the pre-setup snapshot, the reconciliation lookup
raises `KeyError` out of `run_argv`, `run()` is never invoked, and
`runCmdline` swallows the exception and returns nothing. -/
theorem C10_keyerror_out_of_run_argv (M : ModuleDesc) (vn : List String)
    (s : SetupHook) (r : RunHook) (rec : SessionRecord) (argv : List String)
    (opts : List (String × String)) (ts : List String)
    (st : Status) (rec2 : SessionRecord) (k v : String)
    (hg : pyGetopt (M.args_optional.map (fun p => p.1 ++ "=")) argv = Except.ok (opts, ts))
    (ha : ¬ ts.length < M.args_mandatory.length)
    (hv : vector_check_fails M vn (working_set M rec.stored_args opts
        (collapse_mandatory M.args_mandatory ts)) = false)
    (hidle : rec.status = Status.idle)
    (hs : s (working_set M rec.stored_args opts (collapse_mandatory M.args_mandatory ts)) rec
        = Except.ok (st, rec2))
    (hst : ¬ st = Status.fail)
    (hmem : (k, v) ∈ rec2.stored_args)
    (hmiss : rec.stored_args.get? k = none) :
    (run_argv M vn s r rec argv).out.isRaised = true
    ∧ (run_argv M vn s r rec argv).events.all (fun e => !e.isRunCall) = true
    ∧ (runCmdline M vn s r rec (Except.ok argv)).out = ROut.ret none := by
  have hexc := reconcile_delta_error_of_missing rec.stored_args rec2.stored_args k v hmem hmiss
  cases hrc : reconcile_delta rec.stored_args rec2.stored_args with
  | ok d =>
    rw [hrc] at hexc
    exact absurd hexc (by simp [exceptOk])
  | error e =>
    have hps : post_setup s (working_set M rec.stored_args opts
        (collapse_mandatory M.args_mandatory ts)) rec
        = Except.ok { rec2 with status := st } := by
      unfold post_setup
      rw [hidle]
      simp [hs]
    have hrun : run_argv M vn s r rec argv =
        ⟨.raised (keyErrorMsg e), { rec2 with status := st },
          setup_events rec (working_set M rec.stored_args opts
            (collapse_mandatory M.args_mandatory ts))⟩ := by
      rw [run_argv_reaches_dispatch M vn s r rec argv opts ts hg ha]
      unfold resolve_and_dispatch
      rw [if_neg (by simp [hv])]
      rw [lifecycle_phase_ok M s r _ _ rec _ hps]
      exact after_setup_not_fail_error M r _ _ _ _ e hst hrc
    refine ⟨?_, ?_, ?_⟩
    · rw [hrun]
      rfl
    · rw [hrun]
      unfold setup_events
      rw [hidle]
      simp [Event.isRunCall]
    · rw [runCmdline_of_raised M vn s r rec argv (keyErrorMsg e) _ _ hrun]

theorem C10_witness :
    (run_argv ⟨"m2", [], [], ""⟩ [] setupAddY runGetY ⟨[], [], Status.idle⟩ []).out.isRaised
      = true
    ∧ (run_argv ⟨"m2", [], [], ""⟩ [] setupAddY runGetY
        ⟨[], [], Status.idle⟩ []).events.all (fun e => !e.isRunCall) = true
    ∧ (runCmdline ⟨"m2", [], [], ""⟩ [] setupAddY runGetY ⟨[], [], Status.idle⟩
        (Except.ok [])).out = ROut.ret none :=
  C10_keyerror_out_of_run_argv ⟨"m2", [], [], ""⟩ [] setupAddY runGetY
    ⟨[], [], Status.idle⟩ [] [] [] Status.run ⟨[("y", "5")], [], Status.idle⟩
    "y" "5" (by rfl) (by decide) (by rfl) rfl (by rfl) (by decide)
    (by decide) (by rfl)

/-- Setup hook that leaves the record untouched and reports `IDLE`. -/
def setupIdle : SetupHook := fun _ rec => .ok (.idle, rec)

/-- C3 counterexample: a `setup()` returning `IDLE`.  After the setup
phase the session status is `IDLE`, not `RUN`, yet `run()` is invoked and
its result returned: the code gates `run()` only on `FAIL` (line 120),
so the claim "run() is not invoked when the post-setup status is IDLE"
is false. -/
theorem C3_counterexample :
    (run_argv ⟨"m3", [], [], ""⟩ [] setupIdle (fun _ => Except.ok (some "ran"))
        ⟨[], [], Status.idle⟩ []).record.status = Status.idle
    ∧ hasRunCall (run_argv ⟨"m3", [], [], ""⟩ [] setupIdle
        (fun _ => Except.ok (some "ran")) ⟨[], [], Status.idle⟩ []).events = true
    ∧ (run_argv ⟨"m3", [], [], ""⟩ [] setupIdle (fun _ => Except.ok (some "ran"))
        ⟨[], [], Status.idle⟩ []).out = ROut.ret (some "ran") :=
  ⟨rfl, rfl, rfl⟩

/-- C3 (amended): once the dispatch path is reached and the setup phase
completes normally (post-setup record `rec2`), `run()` is invoked exactly
when the post-setup status is not `FAIL` — both `RUN` and `IDLE` proceed —
and the post-setup reconciliation succeeds; and `run_argv`'s outcome is
then exactly `run()`'s result, unchanged (with a raising `run()` or a
reconciliation `KeyError` propagating as an exception). -/
theorem C3_run_gating (M : ModuleDesc) (vn : List String) (s : SetupHook)
    (r : RunHook) (rec : SessionRecord) (argv : List String)
    (opts : List (String × String)) (ts : List String) (rec2 : SessionRecord)
    (hg : pyGetopt (M.args_optional.map (fun p => p.1 ++ "=")) argv = Except.ok (opts, ts))
    (ha : ¬ ts.length < M.args_mandatory.length)
    (hv : vector_check_fails M vn (working_set M rec.stored_args opts
        (collapse_mandatory M.args_mandatory ts)) = false)
    (hs : post_setup s (working_set M rec.stored_args opts
        (collapse_mandatory M.args_mandatory ts)) rec = Except.ok rec2) :
    hasRunCall (run_argv M vn s r rec argv).events =
      (decide (¬ rec2.status = Status.fail)
        && exceptOk (reconcile_delta rec.stored_args rec2.stored_args))
    ∧ (run_argv M vn s r rec argv).out =
      (if rec2.status = Status.fail then ROut.ret none
       else
         match reconcile_delta rec.stored_args rec2.stored_args with
         | .error k => ROut.raised (keyErrorMsg k)
         | .ok delta =>
           match r (Dict.update (working_set M rec.stored_args opts
               (collapse_mandatory M.args_mandatory ts)) delta) with
           | .ok res => ROut.ret res
           | .error e => ROut.raised e) := by
  have hrun : run_argv M vn s r rec argv =
      after_setup M r rec.stored_args
        (working_set M rec.stored_args opts (collapse_mandatory M.args_mandatory ts))
        rec2
        (setup_events rec (working_set M rec.stored_args opts
          (collapse_mandatory M.args_mandatory ts))) := by
    rw [run_argv_reaches_dispatch M vn s r rec argv opts ts hg ha]
    unfold resolve_and_dispatch
    rw [if_neg (by simp [hv])]
    exact lifecycle_phase_ok M s r _ _ rec rec2 hs
  rw [hrun]
  have hse := hasRunCall_setup_events rec (working_set M rec.stored_args opts
    (collapse_mandatory M.args_mandatory ts))
  by_cases hf : rec2.status = Status.fail
  · unfold after_setup
    rw [if_pos hf]
    refine ⟨?_, ?_⟩
    · rw [show (⟨ROut.ret none, rec2,
          setup_events rec (working_set M rec.stored_args opts
            (collapse_mandatory M.args_mandatory ts))
          ++ [Event.logWarn (.moduleInactive M.name)]⟩ : RunResult).events
          = setup_events rec (working_set M rec.stored_args opts
            (collapse_mandatory M.args_mandatory ts))
          ++ [Event.logWarn (.moduleInactive M.name)] from rfl]
      rw [hasRunCall_append, hse]
      simp [hasRunCall, Event.isRunCall, hf]
    · rw [if_pos hf]
  · cases hrc : reconcile_delta rec.stored_args rec2.stored_args with
    | error e =>
      rw [after_setup_not_fail_error M r _ _ _ _ e hf hrc]
      refine ⟨?_, ?_⟩
      · simpa [hf, exceptOk] using hse
      · rw [if_neg hf]
    | ok delta =>
      rw [after_setup_not_fail_ok M r _ _ _ _ delta hf hrc]
      cases hr2 : r (Dict.update (working_set M rec.stored_args opts
          (collapse_mandatory M.args_mandatory ts)) delta) with
      | ok res =>
        refine ⟨?_, ?_⟩
        · simp [hasRunCall, Event.isRunCall, hf, exceptOk]
        · rw [if_neg hf]
          simp [hr2]
      | error e =>
        refine ⟨?_, ?_⟩
        · simp [hasRunCall, Event.isRunCall, hf, exceptOk]
        · rw [if_neg hf]
          simp [hr2]

theorem C3_witness :
    hasRunCall (run_argv ⟨"m3w", [], [], ""⟩ [] default_setup
        (fun _ => Except.ok (some "ok")) ⟨[], [], Status.idle⟩ []).events =
      (decide (¬ (⟨[], [], Status.run⟩ : SessionRecord).status = Status.fail)
        && exceptOk (reconcile_delta ([] : Dict) ([] : Dict))) :=
  (C3_run_gating ⟨"m3w", [], [], ""⟩ [] default_setup
    (fun _ => Except.ok (some "ok")) ⟨[], [], Status.idle⟩ [] [] []
    ⟨[], [], Status.run⟩ (by rfl) (by decide) (by rfl) (by rfl)).1

/-- Setup hook that overwrites the stored value of `x` with `"7"` and
reports `RUN`. -/
def setupSetX7 : SetupHook :=
  fun _ rec => .ok (.run, { rec with stored_args := rec.stored_args.insert "x" "7" })

/-- C5: merge precedence over the whole pipeline.  Starting from persisted
`stored_args` `rec0`, after `register_arguments` with optional defaults
`opt` and a successful `run_argv` invocation, the argument dict handed to
`run()` is the layered overwrite — registered optional defaults, then the
persisted session `stored_args`, then command-line flag values (names
dash-stripped), then mandatory positional tokens consumed from the front
in declaration order, then the post-setup `stored_args` deltas — each
later layer winning on key collision (`orD`'s left argument is the higher
precedence layer). -/
theorem C5_layered_precedence (M : ModuleDesc) (opt : Dict)
    (rec0 rec1 : SessionRecord) (vn : List String) (s : SetupHook) (r : RunHook)
    (argv : List String) (opts : List (String × String)) (ts : List String)
    (rec2 : SessionRecord) (delta : Dict) (k : String)
    (hopt : M.args_optional = opt)
    (hreg : rec1 = (register_arguments M.name M.args_mandatory opt M.bind_to_vectors rec0).2)
    (h0 : rec0.stored_args.NodupKeys)
    (hg : pyGetopt (M.args_optional.map (fun p => p.1 ++ "=")) argv = Except.ok (opts, ts))
    (ha : ¬ ts.length < M.args_mandatory.length)
    (hv : vector_check_fails M vn (working_set M rec1.stored_args opts
        (collapse_mandatory M.args_mandatory ts)) = false)
    (hs : post_setup s (working_set M rec1.stored_args opts
        (collapse_mandatory M.args_mandatory ts)) rec1 = Except.ok rec2)
    (hf : ¬ rec2.status = Status.fail)
    (hn2 : rec2.stored_args.NodupKeys)
    (hr : reconcile_delta rec1.stored_args rec2.stored_args = Except.ok delta) :
    Event.runCalled (Dict.update (working_set M rec1.stored_args opts
        (collapse_mandatory M.args_mandatory ts)) delta)
      ∈ (run_argv M vn s r rec1 argv).events
    ∧ (Dict.update (working_set M rec1.stored_args opts
        (collapse_mandatory M.args_mandatory ts)) delta).get? k =
      orD (delta.get? k)
        (orD ((Dict.ofPairs (M.args_mandatory.zip
            (collapse_mandatory M.args_mandatory ts))).get? k)
          (orD ((Dict.ofPairs (opts.map (fun p => (pyStripDashes p.1, p.2)))).get? k)
            (orD (rec0.stored_args.get? k) (opt.get? k)))) := by
  have hrun : run_argv M vn s r rec1 argv =
      after_setup M r rec1.stored_args (working_set M rec1.stored_args opts
        (collapse_mandatory M.args_mandatory ts)) rec2
        (setup_events rec1 (working_set M rec1.stored_args opts
          (collapse_mandatory M.args_mandatory ts))) := by
    rw [run_argv_reaches_dispatch M vn s r rec1 argv opts ts hg ha]
    unfold resolve_and_dispatch
    rw [if_neg (by simp [hv])]
    exact lifecycle_phase_ok M s r _ _ rec1 rec2 hs
  constructor
  · rw [hrun, after_setup_not_fail_ok M r _ _ _ _ delta hf hr]
    cases hr2 : r (Dict.update (working_set M rec1.stored_args opts
        (collapse_mandatory M.args_mandatory ts)) delta) with
    | ok res => simp
    | error e => simp
  · have hdn : delta.NodupKeys := reconcile_delta_nodupKeys _ _ _ hn2 hr
    have hstored : rec1.stored_args = Dict.update opt rec0.stored_args := by
      rw [hreg]
      rfl
    rw [Dict.get?_update, Dict.get?_ofPairs_self _ hdn]
    unfold working_set
    rw [Dict.get?_update, Dict.get?_update, hstored, Dict.get?_update,
      Dict.get?_ofPairs_self _ h0]

theorem C5_witness :
    Event.runCalled [("x", "7"), ("d", "9")] ∈
      (run_argv ⟨"m5", [], [("x", "1"), ("d", "0")], ""⟩ [] setupSetX7
        (fun _ => Except.ok none) ⟨[("x", "2"), ("d", "0")], [], Status.idle⟩
        ["--d", "9"]).events
    ∧ (Dict.update [("x", "2"), ("d", "9")] [("x", "7")]).get? "x" = some "7" := by
  have h := C5_layered_precedence ⟨"m5", [], [("x", "1"), ("d", "0")], ""⟩
    [("x", "1"), ("d", "0")] ⟨[("x", "2")], [], Status.idle⟩
    ⟨[("x", "2"), ("d", "0")], [], Status.idle⟩ [] setupSetX7
    (fun _ => Except.ok none) ["--d", "9"] [("--d", "9")] []
    ⟨[("x", "7"), ("d", "0")], [], Status.run⟩ [("x", "7")] "x"
    rfl (by rfl) (by decide) (by rfl) (by decide) (by rfl) (by rfl)
    (by decide) (by decide) (by rfl)
  exact ⟨h.1, h.2.trans (by decide)⟩

/-- C9: `run_cmdline` never lets an exception escape.  Its outcome is
never `raised`; a tokenization failure is logged as a warning and the call
returns nothing with the record untouched; and an exception escaping the
delegated `run_argv` call (a raising `setup()` or `run()`, or the
reconciliation `KeyError`) is caught, logged as a warning, and the call
returns nothing. -/
theorem C9_facade_catches_all (M : ModuleDesc) (vn : List String) (s : SetupHook)
    (r : RunHook) (rec : SessionRecord) (tok : Except String (List String)) :
    (runCmdline M vn s r rec tok).out.isRaised = false
    ∧ (∀ e, tok = Except.error e →
        runCmdline M vn s r rec tok =
          ⟨.ret none, rec, [Event.logWarn (.errorParsingCommand e)]⟩)
    ∧ (∀ argv e rec2 evs, tok = Except.ok argv →
        run_argv M vn s r rec argv = ⟨.raised e, rec2, evs⟩ →
        runCmdline M vn s r rec tok =
          ⟨.ret none, rec2, evs ++ [Event.logWarn (.errorParsingCommand e)]⟩) := by
  refine ⟨?_, ?_, ?_⟩
  · cases tok with
    | error e => rfl
    | ok argv =>
      rcases hR : run_argv M vn s r rec argv with ⟨out, rec2, evs⟩
      cases out with
      | ret res =>
        simp only [runCmdline, hR]
        rfl
      | raised e =>
        simp only [runCmdline, hR]
        rfl
  · intro e he
    subst he
    rfl
  · intro argv e rec2 evs htok hR
    subst htok
    exact runCmdline_of_raised M vn s r rec argv e rec2 evs hR

theorem C9_witness :
    runCmdline ⟨"m9", [], [], ""⟩ [] default_setup (fun _ => Except.ok (some "r"))
        ⟨[], [], Status.idle⟩ (Except.error "boom") =
      ⟨.ret none, ⟨[], [], Status.idle⟩, [Event.logWarn (.errorParsingCommand "boom")]⟩
    ∧ (runCmdline ⟨"m2", [], [], ""⟩ [] setupAddY runGetY ⟨[], [], Status.idle⟩
        (Except.ok [])).out.isRaised = false :=
  ⟨(C9_facade_catches_all ⟨"m9", [], [], ""⟩ [] default_setup
      (fun _ => Except.ok (some "r")) ⟨[], [], Status.idle⟩
      (Except.error "boom")).2.1 "boom" rfl,
   (C9_facade_catches_all ⟨"m2", [], [], ""⟩ [] setupAddY runGetY
      ⟨[], [], Status.idle⟩ (Except.ok [])).1⟩

end Weevely
